import Mathlib

/-!
Shallow embedding of `src/prefect/core/task.py`: the `Task` declaration
contract (`Task.__init__`), definition-time signature validation
(`SignatureValidator.__new__`), the dependency-binding operation
(`Task.__call__` / `Task.set_dependencies`), and the `Parameter`
specialization (`Parameter.__init__`, `Parameter.run`, and the
`name`/`slug` properties).

Python values that flow through binding are modelled by `PyVal`; Python
dict keys in `Task.__call__.callargs` are modelled by `PyKey`, which
distinguishes string keys from `inspect.Parameter` objects (the code
passes an `inspect.Parameter` object, or `None`, as a dict key in
`callargs.pop(var_kw_arg, {})`, so the key type must keep them apart
exactly as Python's `dict` does).
-/

set_option autoImplicit false

/-- The kinds of entrypoint parameters the task model uses:
`POSITIONAL_OR_KEYWORD` and `VAR_KEYWORD` (`**kwargs`).  Variable
positional parameters (`*args`) are rejected at type-creation time by
`SignatureValidator`, so bound `run` signatures only contain these two. -/
inductive ParamKind where
  | positionalOrKeyword
  | varKeyword
deriving DecidableEq, Repr

/-- An `inspect.Parameter` of the entrypoint signature: its name, kind, and
whether it carries a default value. -/
structure Param where
  name : String
  kind : ParamKind
  hasDefault : Bool
deriving DecidableEq, Repr

/-- A Python value as seen by the binder: `None`, a `Task` (by id), an inert
literal (int or string), or a dict with string keys. -/
inductive PyVal where
  | pynone
  | task (id : Nat)
  | int (n : Int)
  | str (s : String)
  | dict (entries : List (String × PyVal))

/-- A key of the `callargs` dict in `Task.__call__`: `signature.bind`
produces string keys, while `callargs.pop(var_kw_arg, {})` looks up either
an `inspect.Parameter` object or `None` — never a string. -/
inductive PyKey where
  | s (v : String)
  | p (v : Param)
  | keynone
deriving DecidableEq, Repr

/-- `d.get(name)` on a string-keyed dict (first matching entry). -/
def pyGet (d : List (String × PyVal)) (name : String) : Option PyVal :=
  (d.find? (fun q => q.1 == name)).map (fun q => q.2)

/-- Phase 1 of `inspect.Signature.bind`: match positional arguments against
the parameters in order.  Returns the positionally bound `(name, value)`
pairs in order together with the parameters not consumed positionally.
Errors: more positional arguments than positional-or-keyword parameters,
or a positionally bound name also supplied as a keyword. -/
def bindPositional : List Param → List PyVal → List (String × PyVal) →
    Except String (List (String × PyVal) × List Param)
  | ps, [], _ => .ok ([], ps)
  | [], _ :: _, _ => .error "too many positional arguments"
  | p :: ps, a :: as, kw =>
    if p.kind = ParamKind.varKeyword then .error "too many positional arguments"
    else if kw.any (fun q => q.1 == p.name) then .error "multiple values for argument"
    else
      match bindPositional ps as kw with
      | .error e => .error e
      | .ok (bs, rest) => .ok ((p.name, a) :: bs, rest)

/-- Phase 2 of `inspect.Signature.bind`: walk the remaining parameters,
binding keyword arguments by name (and popping them), recording the
variable-keyword parameter if present, and failing on the first unbound
required parameter.  Returns the keyword-bound pairs in parameter order,
the leftover keyword arguments, and the `**` parameter if any. -/
def bindKeyword : List Param → List (String × PyVal) →
    Except String (List (String × PyVal) × List (String × PyVal) × Option Param)
  | [], kw => .ok ([], kw, Option.none)
  | p :: ps, kw =>
    if p.kind = ParamKind.varKeyword then
      match bindKeyword ps kw with
      | .error e => .error e
      | .ok (bs, rest, _) => .ok (bs, rest, some p)
    else
      match kw.find? (fun q => q.1 == p.name) with
      | some qv =>
        match bindKeyword ps (kw.filter (fun q => !(q.1 == p.name))) with
        | .error e => .error e
        | .ok (bs, rest, vk) => .ok ((p.name, qv.2) :: bs, rest, vk)
      | Option.none =>
        if p.hasDefault then bindKeyword ps kw
        else .error "missing a required argument"

/-- `inspect.Signature.bind(*args, **kwargs).arguments` restricted to the
parameter kinds the task model admits: positional phase, then keyword
phase, then the leftover keyword arguments are compressed into a dict
stored under the `**` parameter's name (error if leftovers exist and no
`**` parameter does).  The result is the ordered `callargs` dict of
`Task.__call__`, with string keys. -/
def sigBind (sig : List Param) (args : List PyVal) (kwargs : List (String × PyVal)) :
    Except String (List (PyKey × PyVal)) :=
  match bindPositional sig args kwargs with
  | .error e => .error e
  | .ok (pos, rest) =>
    match bindKeyword rest kwargs with
    | .error e => .error e
    | .ok (kwbound, leftover, vk) =>
      let base := (pos ++ kwbound).map (fun q => (PyKey.s q.1, q.2))
      match vk with
      | some p =>
        if leftover.isEmpty then .ok base
        else .ok (base ++ [(PyKey.s p.name, PyVal.dict leftover)])
      | Option.none =>
        if leftover.isEmpty then .ok base
        else .error "got an unexpected keyword argument"

/-- The first variable-keyword parameter of the signature
(`next((p for p in signature.parameters.values() if p.kind == VAR_KEYWORD), None)`). -/
def varKwParam (sig : List Param) : Option Param :=
  sig.find? (fun p => p.kind == ParamKind.varKeyword)

/-- `d.pop(k, {})`: returns the value stored under `k` (default `{}`) and the
dict with that key removed. -/
def dictPop (d : List (PyKey × PyVal)) (k : PyKey) : PyVal × List (PyKey × PyVal) :=
  match d.find? (fun q => q.1 == k) with
  | some qv => (qv.2, d.filter (fun q => !(q.1 == k)))
  | Option.none => (PyVal.dict [], d)

/-- `d.update(other)`: overwrite existing keys, append new ones in order. -/
def dictUpdate (d : List (PyKey × PyVal)) (other : List (PyKey × PyVal)) :
    List (PyKey × PyVal) :=
  other.foldl
    (fun acc kv =>
      if acc.any (fun q => q.1 == kv.1) then
        acc.map (fun q => if q.1 == kv.1 then (q.1, kv.2) else q)
      else acc ++ [kv])
    d

/-- The entries of a `PyVal` dict, as `callargs.update` iterates them
(string keys become `callargs` keys). -/
def pyDictEntries : PyVal → List (PyKey × PyVal)
  | PyVal.dict l => l.map (fun q => (PyKey.s q.1, q.2))
  | _ => []

/-- The `callargs` computation of `Task.__call__` (task.py lines 161-170):
`callargs = dict(signature.bind(*args, **kwargs).arguments)`, then
`callargs.update(callargs.pop(var_kw_arg, {}))` where `var_kw_arg` is the
variable-keyword `inspect.Parameter` object itself (or `None`) — not its
name — so the pop key is a `PyKey.p`/`PyKey.keynone`, never a string. -/
def callKeywordTasks (sig : List Param) (args : List PyVal)
    (kwargs : List (String × PyVal)) : Except String (List (PyKey × PyVal)) :=
  match sigBind sig args kwargs with
  | .error e => .error e
  | .ok callargs =>
    let popKey := match varKwParam sig with
      | some p => PyKey.p p
      | Option.none => PyKey.keynone
    let popped := dictPop callargs popKey
    .ok (dictUpdate popped.2 (pyDictEntries popped.1))

/-- A dependency edge: upstream task id, downstream task id, and an optional
binding key (keyed edge = result injected as that named argument). -/
structure Edge where
  upstream : Nat
  downstream : Nat
  key : Option String
deriving DecidableEq, Repr

/-- The ambient flow's dependency graph: its list of edges. -/
structure FlowGraph where
  edges : List Edge
deriving DecidableEq, Repr

/-- The ambient context consulted by `Task.__call__`:
`prefect.context.get("_flow", None)`. -/
structure AmbientCtx where
  flow : Option FlowGraph
deriving DecidableEq, Repr

/-- Errors raised by `Task.__call__`: the `TypeError` raised by
`signature.bind` on an argument mismatch (the spec's BindingError
"ArgumentMismatch"), and the `ValueError` raised when no flow is in
context (the spec's ContextError). -/
inductive CallErr where
  | bindingError (msg : String)
  | contextError (msg : String)
deriving DecidableEq, Repr

/-- Modelled from the spec: `Flow.set_dependencies` (prefect/core/flow.py is
not among the sources).  Each task in `upstream_tasks` becomes an unkeyed
edge into `task`; each entry of `keyword_tasks` whose value is a task
becomes a keyed edge into `task` under that entry's string key; non-task
values are inert literals and create no edge; all edges of one call are
committed together. -/
def flowSetDependencies (g : FlowGraph) (task : Nat) (upstreamTasks : List PyVal)
    (keywordTasks : List (PyKey × PyVal)) : FlowGraph :=
  let upEdges := upstreamTasks.filterMap (fun v =>
    match v with
    | PyVal.task t => some (Edge.mk t task Option.none)
    | _ => Option.none)
  let kwEdges := keywordTasks.filterMap (fun kv =>
    match kv with
    | (PyKey.s k, PyVal.task t) => some (Edge.mk t task (some k))
    | _ => Option.none)
  FlowGraph.mk (g.edges ++ upEdges ++ kwEdges)

/-- `Task.__call__` (task.py lines 158-180): bind the arguments against the
entrypoint signature (raising on mismatch), attempt to expand the
variable-keyword entries, look up the ambient flow (raising
`"Could not infer an active Flow context."` if none), then commit the
dependencies via `flow.set_dependencies` and return `self`.  State is
threaded explicitly: every error path returns the context unchanged, since
the code raises before reaching `set_dependencies`. -/
def taskCall (sig : List Param) (selfId : Nat) (args : List PyVal)
    (upstreamTasks : List PyVal) (kwargs : List (String × PyVal))
    (ctx : AmbientCtx) : Except CallErr Nat × AmbientCtx :=
  match callKeywordTasks sig args kwargs with
  | .error m => (.error (CallErr.bindingError m), ctx)
  | .ok kwTasks =>
    match ctx.flow with
    | Option.none =>
      (.error (CallErr.contextError "Could not infer an active Flow context."), ctx)
    | some g =>
      let g2 := flowSetDependencies g selfId upstreamTasks kwTasks
      (.ok selfId, AmbientCtx.mk (some g2))

example :
    callKeywordTasks [Param.mk "kwargs" ParamKind.varKeyword false] []
      [("a", PyVal.task 1)]
      = .ok [(PyKey.s "kwargs", PyVal.dict [("a", PyVal.task 1)])] := rfl

example :
    taskCall [Param.mk "x" ParamKind.positionalOrKeyword false] 0
      [] [] [("x", PyVal.task 1)] (AmbientCtx.mk (some (FlowGraph.mk [])))
      = (.ok 0, AmbientCtx.mk (some (FlowGraph.mk [Edge.mk 1 0 (some "x")]))) := rfl

/-- The `tags` constructor argument of `Task.__init__`: `None`, a bare
string (`isinstance(tags, str)`), or a collection of strings. -/
inductive TagsArg where
  | pynone
  | str (s : String)
  | coll (l : List String)
deriving DecidableEq, Repr

/-- A cache validator value: the two built-ins of
`prefect.engine.cache_validators` and user-supplied callables (by id). -/
inductive CacheValidatorV where
  | never_use
  | duration_only
  | custom (id : Nat)
deriving DecidableEq, Repr

/-- A trigger value: the `prefect.triggers.all_successful` default and
user-supplied callables (by id). -/
inductive TriggerV where
  | all_successful
  | custom (id : Nat)
deriving DecidableEq, Repr

/-- The ambient context read by `Task.__init__`:
`prefect.context.get("_group", "")` and `prefect.context.get("_tags", [])`. -/
structure InitCtx where
  group : Option String
  tags : List String
deriving DecidableEq, Repr

/-- The fields `Task.__init__` assigns (durations as integer seconds;
`tags` as a deduplicated list standing for the Python set). -/
structure TaskObj where
  name : String
  slug : Option String
  description : Option String
  group : String
  tags : List String
  max_retries : Nat
  retry_delay : Int
  timeout : Option Int
  trigger : TriggerV
  skip_on_upstream_skip : Bool
  cache_for : Option Int
  cache_validator : CacheValidatorV
deriving DecidableEq, Repr

/-- `Task.__init__` (task.py lines 75-119).  Returns the constructed object
together with whether `warnings.warn` fired (a `cache_validator` supplied
without `cache_for`), or the `TypeError` raised when `tags` is a bare
string.  Python truthiness: `name or type(self).__name__` and
`group or context.get("_group", "")` fall through on `None`/empty string;
`tags or context.get("_tags", [])` falls through on `None`/empty
collection; `trigger or all_successful` and
`cache_validator or default_validator` fall through on `None` only
(callables are always truthy). -/
def taskInit (name : Option String) (typeName : String) (slug : Option String)
    (description : Option String) (group : Option String) (tags : TagsArg)
    (max_retries : Nat) (retry_delay : Int) (timeout : Option Int)
    (trigger : Option TriggerV) (skip_on_upstream_skip : Bool)
    (cache_for : Option Int) (cache_validator : Option Nat)
    (ctx : InitCtx) : Except String (TaskObj × Bool) :=
  let name2 := match name with
    | some n => if n = "" then typeName else n
    | Option.none => typeName
  let group2 := match group with
    | some g => if g = "" then ctx.group.getD "" else g
    | Option.none => ctx.group.getD ""
  match tags with
  | TagsArg.str _ => .error "Tags should be a set of tags, not a string."
  | _ =>
    let tags2 := match tags with
      | TagsArg.coll l => if l.isEmpty then ctx.tags.dedup else l.dedup
      | _ => ctx.tags.dedup
    let warned := cache_for.isNone && cache_validator.isSome
    let default_validator :=
      if cache_for.isNone then CacheValidatorV.never_use
      else CacheValidatorV.duration_only
    let cv := match cache_validator with
      | some c => CacheValidatorV.custom c
      | Option.none => default_validator
    .ok (TaskObj.mk name2 slug description group2 tags2 max_retries retry_delay
      timeout (trigger.getD TriggerV.all_successful) skip_on_upstream_skip
      cache_for cv, warned)

/-- What `inspect.getfullargspec` reports about a `run` method found in a
class body: its named arguments, and whether it has `*args` / `**kwargs`. -/
structure RunSpec where
  args : List String
  varargs : Bool
  varkw : Bool
deriving DecidableEq, Repr

/-- A created task class: its resolved `run` entrypoint. -/
structure Cls where
  runSpec : RunSpec
deriving DecidableEq, Repr

/-- The `lambda: None` default of `methods.get("run", lambda: None)`. -/
def lambdaNoneSpec : RunSpec := RunSpec.mk [] false false

/-- `SignatureValidator.__new__` (task.py lines 19-33): inspect the `run`
found in the class's own `methods` dict (the `lambda: None` default when
the body declares none) and fail if it has variable positional arguments;
otherwise create the type, whose resolved `run` is the body's own if
present, else the one inherited from the first parent.  Because the
metaclass is invoked afresh for every class in the hierarchy with that
class's own `methods` dict, the check depends only on `methodsRun`. -/
def signatureValidatorNew (parents : List Cls) (methodsRun : Option RunSpec) :
    Except String Cls :=
  let run := methodsRun.getD lambdaNoneSpec
  if run.varargs then
    .error "Tasks with variable positional arguments (*args) are not supported"
  else
    .ok (Cls.mk (methodsRun.getD
      ((parents.head?.map Cls.runSpec).getD lambdaNoneSpec)))

/-- A signal raised by an entrypoint: `FAIL`, `SUCCESS`, or `WAIT` from
`prefect.engine.signals`. -/
inductive Signal where
  | fail (msg : String)
  | success (v : PyVal)
  | wait (msg : String)

/-- `Parameter.run` (task.py lines 301-307): with `params` the ambient
`context.get("_parameters", {})`, raise
`FAIL("Parameter \x22<name>\x22 was required but not provided.")` when the
parameter is required and its name is absent, else return
`params.get(self.name, self.default)`. -/
def parameterRunFn (required : Bool) (name : String) (default : PyVal)
    (params : List (String × PyVal)) : Except Signal PyVal :=
  if required && (pyGet params name).isNone then
    .error (Signal.fail
      ("Parameter \"" ++ name ++ "\" was required but not provided."))
  else
    .ok ((pyGet params name).getD default)

/-- The attribute state of a `Parameter` instance: `_name` (absent until the
`name` setter first runs), `required`, and `default`.  The other fields
assigned by `Task.__init__` (description, group, tags, …) are disjoint
from the name/slug machinery and are omitted. -/
structure ParamObj where
  pname : Option String
  required : Bool
  default : PyVal

/-- The `Parameter.name` getter: returns `_name`. -/
def parameterNameGet (p : ParamObj) : Option String := p.pname

/-- The `Parameter.name` setter (task.py lines 280-284): raises
`AttributeError` if `_name` is already set, else sets it. -/
def parameterNameSet (p : ParamObj) (v : String) : Except String ParamObj :=
  match p.pname with
  | some _ => .error "Parameter name can not be changed"
  | Option.none => .ok (ParamObj.mk (some v) p.required p.default)

/-- The `Parameter.slug` getter (task.py lines 286-292): always returns the
name. -/
def parameterSlugGet (p : ParamObj) : Option String := parameterNameGet p

/-- The `Parameter.slug` setter (task.py lines 294-299): a no-op when the
value equals the name, an `AttributeError` otherwise (reading `self.name`
itself raises if `_name` is unset). -/
def parameterSlugSet (p : ParamObj) (v : String) : Except String ParamObj :=
  match p.pname with
  | Option.none => .error "AttributeError"
  | some n => if v = n then .ok p else
      .error "Parameter slug must be the same as its name."

/-- `Parameter.__init__` (task.py lines 264-271): force `required = False`
when `default` is not `None`, store `required` and `default`, then
`super().__init__(name=name, slug=name)`, whose relevant effect is
`self.name = name or type(self).__name__` (the `name` setter) followed by
`self.slug = slug` (the `slug` setter). -/
def parameterInit (name : String) (default : PyVal) (required : Bool) :
    Except String ParamObj :=
  let req := match default with
    | PyVal.pynone => required
    | _ => false
  let p0 := ParamObj.mk Option.none req default
  match parameterNameSet p0 (if name = "" then "Parameter" else name) with
  | .error e => .error e
  | .ok p1 =>
    match parameterSlugSet p1 name with
    | .error e => .error e
    | .ok p2 => .ok p2

/-- A normal keyword binding: a task-valued named argument yields exactly one
keyed edge. -/
example :
    taskCall [Param.mk "x" ParamKind.positionalOrKeyword false] 0
      [] [] [("x", PyVal.int 5)] (AmbientCtx.mk (some (FlowGraph.mk [])))
      = (.ok 0, AmbientCtx.mk (some (FlowGraph.mk []))) := rfl

/-- C1: the claim fails on the code, whose intent it correctly states.  At
the failing input — a task (id 0) whose entrypoint is `run(self, **kwargs)`,
invoked as `t(a=<task 1>)` inside an active empty flow — the captured
variable-keyword entries are NOT flattened: `callargs.pop(var_kw_arg, {})`
pops with the `inspect.Parameter` object as the key while `callargs` is
keyed by strings, so the pop always returns the default `{}` and the dict
captured under the `**`-parameter's name survives nested into the
keyword-task set handed to `set_dependencies`; no keyed edge is created. -/
theorem c1_var_keyword_entries_not_flattened :
    callKeywordTasks [Param.mk "kwargs" ParamKind.varKeyword false] []
        [("a", PyVal.task 1)]
      = .ok [(PyKey.s "kwargs", PyVal.dict [("a", PyVal.task 1)])] ∧
    taskCall [Param.mk "kwargs" ParamKind.varKeyword false] 0 [] []
        [("a", PyVal.task 1)] (AmbientCtx.mk (some (FlowGraph.mk [])))
      = (.ok 0, AmbientCtx.mk (some (FlowGraph.mk []))) :=
  ⟨rfl, rfl⟩

/-- C2 counterexample: the claim "every call-style invocation made while no
ambient flow is set raises the ContextError" is false as stated — at the
concrete input `t()` on a task whose entrypoint is `run(self, x)`, with no
ambient flow, `signature.bind` (task.py line 163) raises its binding
TypeError before the flow check (lines 172-174) is ever reached, so the
raised error is the BindingError, which is not the ContextError. -/
theorem c2_no_flow_counterexample :
    taskCall [Param.mk "x" ParamKind.positionalOrKeyword false] 0 [] [] []
        (AmbientCtx.mk Option.none)
      = (.error (CallErr.bindingError "missing a required argument"),
         AmbientCtx.mk Option.none) ∧
    CallErr.bindingError "missing a required argument"
      ≠ CallErr.contextError "Could not infer an active Flow context." :=
  ⟨rfl, by decide⟩

/-- C2 (amended): a call-style invocation whose arguments bind against the
entrypoint signature, made while no flow is set in the ambient context,
fails with the ContextError `"Could not infer an active Flow context."` and
leaves the context (hence every graph) unchanged — `set_dependencies` is
never reached.  (An invocation whose arguments do not bind instead fails
earlier, with the binding error raised by `signature.bind`, equally without
effect.) -/
theorem c2_no_flow_raises_context_error (sig : List Param) (selfId : Nat)
    (args : List PyVal) (up : List PyVal) (kwargs : List (String × PyVal))
    (ca : List (PyKey × PyVal))
    (h : callKeywordTasks sig args kwargs = .ok ca) :
    taskCall sig selfId args up kwargs (AmbientCtx.mk Option.none)
      = (.error (CallErr.contextError "Could not infer an active Flow context."),
         AmbientCtx.mk Option.none) := by
  unfold taskCall
  rw [h]

/-- C2 witness: a task with entrypoint `run(self, x)` invoked as `t(x=5)`
with no ambient flow. -/
theorem c2_no_flow_raises_context_error_witness :
    taskCall [Param.mk "x" ParamKind.positionalOrKeyword false] 0 []
        [] [("x", PyVal.int 5)] (AmbientCtx.mk Option.none)
      = (.error (CallErr.contextError "Could not infer an active Flow context."),
         AmbientCtx.mk Option.none) :=
  c2_no_flow_raises_context_error _ 0 _ [] _ [(PyKey.s "x", PyVal.int 5)] rfl

/-- C3: (1) whenever the arguments fail to bind against the entrypoint
signature (required parameter missing, extra positional argument, …) the
call fails with the BindingError raised by `signature.bind` and the context
— in particular the ambient flow's edge set — is unchanged, no edge having
been recorded; (2) binding is all-or-nothing: every invocation inside an
active flow either fails leaving the graph exactly as it was, or succeeds
committing all resolved edges in the single `set_dependencies` call. -/
theorem c3_binding_is_all_or_nothing :
    (∀ (sig : List Param) (selfId : Nat) (args : List PyVal) (up : List PyVal)
        (kwargs : List (String × PyVal)) (m : String) (ctx : AmbientCtx),
      callKeywordTasks sig args kwargs = .error m →
      taskCall sig selfId args up kwargs ctx
        = (.error (CallErr.bindingError m), ctx)) ∧
    (∀ (sig : List Param) (selfId : Nat) (args : List PyVal) (up : List PyVal)
        (kwargs : List (String × PyVal)) (g : FlowGraph),
      (∃ e, taskCall sig selfId args up kwargs (AmbientCtx.mk (some g))
          = (.error e, AmbientCtx.mk (some g))) ∨
      (∃ ca, callKeywordTasks sig args kwargs = .ok ca ∧
        taskCall sig selfId args up kwargs (AmbientCtx.mk (some g))
          = (.ok selfId,
             AmbientCtx.mk (some (flowSetDependencies g selfId up ca))))) := by
  constructor
  · intro sig selfId args up kwargs m ctx h
    unfold taskCall
    rw [h]
  · intro sig selfId args up kwargs g
    cases h : callKeywordTasks sig args kwargs with
    | error m =>
      exact Or.inl ⟨CallErr.bindingError m, by unfold taskCall; rw [h]⟩
    | ok ca =>
      exact Or.inr ⟨ca, rfl, by unfold taskCall; rw [h]⟩

/-- C3 witness: a task with entrypoint `run(self, x)` invoked with no
arguments inside a flow that already holds one edge — the required
parameter `x` is missing, the call fails, and the existing edge set
survives untouched. -/
theorem c3_binding_is_all_or_nothing_witness :
    taskCall [Param.mk "x" ParamKind.positionalOrKeyword false] 0 [] [] []
        (AmbientCtx.mk (some (FlowGraph.mk [Edge.mk 7 8 Option.none])))
      = (.error (CallErr.bindingError "missing a required argument"),
         AmbientCtx.mk (some (FlowGraph.mk [Edge.mk 7 8 Option.none]))) :=
  c3_binding_is_all_or_nothing.1 _ 0 [] [] [] _ _ rfl

/-- C4: type creation through `SignatureValidator` checks the class's own
`methods` dict afresh for every class: any class whose own `run` declares
`*args` fails with the DefinitionError, whatever its parents; one whose
`run` uses only named and/or variable-keyword parameters registers
successfully; and a class body without `run` registers successfully (the
`lambda: None` default is checked).  The result depends only on the class's
own `run`, never on the parents, which is the re-application to every
subtype. -/
theorem c4_signature_validator_rejects_varargs (parents : List Cls) (r : RunSpec) :
    (r.varargs = true →
      signatureValidatorNew parents (some r)
        = .error
          "Tasks with variable positional arguments (*args) are not supported") ∧
    (r.varargs = false → signatureValidatorNew parents (some r) = .ok (Cls.mk r)) ∧
    signatureValidatorNew parents Option.none
      = .ok (Cls.mk ((parents.head?.map Cls.runSpec).getD lambdaNoneSpec)) := by
  refine ⟨fun h => ?_, fun h => ?_, rfl⟩ <;>
    simp [signatureValidatorNew, h]

/-- C4 witness: a parent whose `run(self, x, **kw)` has no `*args` registers
successfully, and a subtype of it overriding `run(self, *args)` fails even
though the parent passed. -/
theorem c4_signature_validator_rejects_varargs_witness :
    signatureValidatorNew [] (some (RunSpec.mk ["self", "x"] false true))
      = .ok (Cls.mk (RunSpec.mk ["self", "x"] false true)) ∧
    signatureValidatorNew [Cls.mk (RunSpec.mk ["self", "x"] false true)]
        (some (RunSpec.mk ["self"] true false))
      = .error
        "Tasks with variable positional arguments (*args) are not supported" :=
  ⟨(c4_signature_validator_rejects_varargs [] (RunSpec.mk ["self", "x"] false true)).2.1
      rfl,
   (c4_signature_validator_rejects_varargs [Cls.mk (RunSpec.mk ["self", "x"] false true)]
      (RunSpec.mk ["self"] true false)).1 rfl⟩

/-- C5 counterexample: constructing a Task with explicit tags `{"a"}` while
the ambient context tags are `{"c"}` does NOT store the union
`{"a", "c"}` — `set(tags or context.get("_tags", []))` uses the explicit
tags alone whenever they are non-empty. -/
theorem c5_tags_union_counterexample :
    ¬ ((taskInit Option.none "T" Option.none Option.none Option.none
        (TagsArg.coll ["a"]) 0 60 Option.none Option.none true Option.none
        Option.none (InitCtx.mk Option.none ["c"])).toOption.map
          (fun r => r.1.tags.toFinset)
      = some ({"a", "c"} : Finset String)) := by
  decide

/-- C5 amended: for every Task constructed with an explicitly supplied
non-empty (non-string) collection of tags, the stored tags field equals the
set of the explicitly supplied tags alone; the ambient context tags are
ignored (they are used only when no tags, or an empty collection, is
supplied). -/
theorem c5_explicit_tags_override_ambient (name : Option String)
    (typeName : String) (slug description group : Option String)
    (l : List String) (mr : Nat) (rd : Int) (timeout : Option Int)
    (trigger : Option TriggerV) (sk : Bool) (cf : Option Int) (cv : Option Nat)
    (ctx : InitCtx) (h : l ≠ []) :
    ∃ t w, taskInit name typeName slug description group (TagsArg.coll l) mr rd
        timeout trigger sk cf cv ctx = .ok (t, w) ∧ t.tags = l.dedup := by
  cases l with
  | nil => exact absurd rfl h
  | cons a as => exact ⟨_, _, rfl, rfl⟩

/-- C5 amended witness: explicit tags `{"a"}` with ambient tags `{"c"}`
store exactly `{"a"}`. -/
theorem c5_explicit_tags_override_ambient_witness :
    ∃ t w, taskInit Option.none "T" Option.none Option.none Option.none
        (TagsArg.coll ["a"]) 0 60 Option.none Option.none true Option.none
        Option.none (InitCtx.mk Option.none ["c"]) = .ok (t, w) ∧
      t.tags = ["a"] :=
  c5_explicit_tags_override_ambient Option.none "T" Option.none Option.none
    Option.none ["a"] 0 60 Option.none Option.none true Option.none Option.none
    (InitCtx.mk Option.none ["c"]) (by decide)

/-- C6: construction with `tags` supplied as a bare string raises the
TypeError `"Tags should be a set of tags, not a string."` — no object is
produced, so no field is ever set from it; and construction with the
collection `{"a", "b"}` succeeds (under any ambient context) and stores
exactly the set `{"a", "b"}`. -/
theorem c6_string_tags_rejected :
    (∀ (name : Option String) (typeName : String)
        (slug description group : Option String) (s : String) (mr : Nat)
        (rd : Int) (timeout : Option Int) (trigger : Option TriggerV) (sk : Bool)
        (cf : Option Int) (cv : Option Nat) (ctx : InitCtx),
      taskInit name typeName slug description group (TagsArg.str s) mr rd timeout
          trigger sk cf cv ctx
        = .error "Tags should be a set of tags, not a string.") ∧
    (∀ ctx : InitCtx, ∃ t w,
      taskInit Option.none "T" Option.none Option.none Option.none
          (TagsArg.coll ["a", "b"]) 0 60 Option.none Option.none true
          Option.none Option.none ctx = .ok (t, w) ∧
        t.tags.toFinset = ({"a", "b"} : Finset String)) := by
  constructor
  · intro name typeName slug description group s mr rd timeout trigger sk cf cv ctx
    rfl
  · intro ctx
    refine ⟨_, _, rfl, ?_⟩
    show (["a", "b"] : List String).dedup.toFinset = ({"a", "b"} : Finset String)
    decide

/-- C7: `Parameter.run` raises the FAIL signal carrying exactly
`Parameter "<name>" was required but not provided.` when the parameter is
required and its name is absent from the ambient parameter mapping; when
the name is present it returns the mapped value (whatever `required` is);
when absent and not required it returns the default. -/
theorem c7_parameter_run_required_fail (name : String) (default : PyVal)
    (params : List (String × PyVal)) :
    (pyGet params name = Option.none →
      parameterRunFn true name default params
        = .error (Signal.fail
            ("Parameter \"" ++ name ++ "\" was required but not provided."))) ∧
    (∀ (required : Bool) (v : PyVal), pyGet params name = some v →
      parameterRunFn required name default params = .ok v) ∧
    (pyGet params name = Option.none →
      parameterRunFn false name default params = .ok default) := by
  refine ⟨fun h => ?_, fun required v h => ?_, fun h => ?_⟩ <;>
    simp [parameterRunFn, h]

/-- C7 witness: with an empty mapping, required `x` fails with the exact
message; `{x: 5}` returns `5`; a non-required parameter with default `7`
and empty mapping returns `7`. -/
theorem c7_parameter_run_required_fail_witness :
    parameterRunFn true "x" PyVal.pynone []
      = .error (Signal.fail "Parameter \"x\" was required but not provided.") ∧
    parameterRunFn true "x" PyVal.pynone [("x", PyVal.int 5)]
      = .ok (PyVal.int 5) ∧
    parameterRunFn false "x" (PyVal.int 7) [] = .ok (PyVal.int 7) :=
  ⟨(c7_parameter_run_required_fail "x" PyVal.pynone []).1 rfl,
   (c7_parameter_run_required_fail "x" PyVal.pynone [("x", PyVal.int 5)]).2.1
      true (PyVal.int 5) rfl,
   (c7_parameter_run_required_fail "x" (PyVal.int 7) []).2.2 rfl⟩

/-- Helper: with a non-empty name, `Parameter.__init__` succeeds and stores
`_name = name` together with the adjusted `required` flag. -/
theorem parameterInit_ok (name : String) (default : PyVal) (required : Bool)
    (h : name ≠ "") :
    parameterInit name default required
      = .ok (ParamObj.mk (some name)
          (match default with | PyVal.pynone => required | _ => false)
          default) := by
  simp [parameterInit, parameterNameSet, parameterSlugSet, h]

/-- Helper: with the empty name, the slug setter receives `""` while the name
was defaulted to the type's name, so construction fails. -/
theorem parameterInit_empty_name (default : PyVal) (required : Bool) :
    parameterInit "" default required
      = .error "Parameter slug must be the same as its name." := rfl

/-- Helper: assigning the slug any value other than the stored name fails. -/
theorem parameterSlugSet_ne (n v : String) (r : Bool) (d : PyVal)
    (hvn : v ≠ n) :
    parameterSlugSet (ParamObj.mk (some n) r d) v
      = .error "Parameter slug must be the same as its name." := by
  simp [parameterSlugSet, hvn]

/-- C8: for every successfully constructed Parameter, the slug always equals
the name; every attempt to reassign the name raises the AttributeError
`"Parameter name can not be changed"`; and every attempt to assign the slug
a value different from the name raises the AttributeError
`"Parameter slug must be the same as its name."` — the binding is permanent
from the first assignment made during construction. -/
theorem c8_parameter_slug_bound_to_name (name : String) (default : PyVal)
    (required : Bool) (p : ParamObj)
    (h : parameterInit name default required = .ok p) :
    parameterSlugGet p = parameterNameGet p ∧
    (∀ v, parameterNameSet p v = .error "Parameter name can not be changed") ∧
    (∀ v, parameterSlugGet p ≠ some v →
      parameterSlugSet p v
        = .error "Parameter slug must be the same as its name.") := by
  by_cases hn : name = ""
  · rw [hn, parameterInit_empty_name] at h
    exact absurd h (by simp)
  · rw [parameterInit_ok name default required hn] at h
    injection h with h2
    subst h2
    refine ⟨rfl, fun v => rfl, fun v hv => ?_⟩
    exact parameterSlugSet_ne name v _ default
      (fun hveq => hv (by subst hveq; rfl))

/-- C8 witness: the Parameter constructed as `Parameter("x")` has slug `"x"`
equal to its name, rejects renaming to `"y"`, and rejects slug `"y"`. -/
theorem c8_parameter_slug_bound_to_name_witness :
    parameterSlugGet (ParamObj.mk (some "x") true PyVal.pynone) = some "x" ∧
    parameterNameSet (ParamObj.mk (some "x") true PyVal.pynone) "y"
      = .error "Parameter name can not be changed" ∧
    parameterSlugSet (ParamObj.mk (some "x") true PyVal.pynone) "y"
      = .error "Parameter slug must be the same as its name." :=
  ⟨((c8_parameter_slug_bound_to_name "x" PyVal.pynone true
      (ParamObj.mk (some "x") true PyVal.pynone) rfl).1).trans rfl,
   (c8_parameter_slug_bound_to_name "x" PyVal.pynone true
      (ParamObj.mk (some "x") true PyVal.pynone) rfl).2.1 "y",
   (c8_parameter_slug_bound_to_name "x" PyVal.pynone true
      (ParamObj.mk (some "x") true PyVal.pynone) rfl).2.2 "y" (by decide)⟩

/-- C9: constructing a Task with a `cache_validator` but no `cache_for`
fires the non-fatal warning and still succeeds, storing `cache_for = None`
and the supplied validator itself (never the never-cache built-in); when no
`cache_validator` is supplied, no warning fires and the stored validator is
the `never_use` built-in if `cache_for` is `None` and the `duration_only`
built-in otherwise. -/
theorem c9_cache_validator_without_cache_for_warns (name : Option String)
    (typeName : String) (slug description group : Option String) (tags : TagsArg)
    (mr : Nat) (rd : Int) (timeout : Option Int) (trigger : Option TriggerV)
    (sk : Bool) (ctx : InitCtx) (hs : ∀ s, tags ≠ TagsArg.str s) :
    (∀ c : Nat, ∃ t,
      taskInit name typeName slug description group tags mr rd timeout trigger sk
          Option.none (some c) ctx = .ok (t, true) ∧
        t.cache_for = Option.none ∧
        t.cache_validator = CacheValidatorV.custom c) ∧
    (∀ cf : Option Int, ∃ t,
      taskInit name typeName slug description group tags mr rd timeout trigger sk
          cf Option.none ctx = .ok (t, false) ∧
        t.cache_validator
          = (if cf.isNone then CacheValidatorV.never_use
             else CacheValidatorV.duration_only)) := by
  cases tags with
  | str s => exact absurd rfl (hs s)
  | pynone =>
    constructor
    · intro c
      exact ⟨_, rfl, rfl, rfl⟩
    · intro cf
      cases cf with
      | none => exact ⟨_, rfl, rfl⟩
      | some d => exact ⟨_, rfl, rfl⟩
  | coll l =>
    constructor
    · intro c
      exact ⟨_, rfl, rfl, rfl⟩
    · intro cf
      cases cf with
      | none => exact ⟨_, rfl, rfl⟩
      | some d => exact ⟨_, rfl, rfl⟩

/-- C9 witness: validator `3` without `cache_for` warns and is stored
itself; no validator with `cache_for = None` stores `never_use`. -/
theorem c9_cache_validator_without_cache_for_warns_witness :
    (∃ t, taskInit Option.none "T" Option.none Option.none Option.none
        TagsArg.pynone 0 60 Option.none Option.none true Option.none (some 3)
        (InitCtx.mk Option.none []) = .ok (t, true) ∧
      t.cache_for = Option.none ∧
      t.cache_validator = CacheValidatorV.custom 3) ∧
    (∃ t, taskInit Option.none "T" Option.none Option.none Option.none
        TagsArg.pynone 0 60 Option.none Option.none true Option.none Option.none
        (InitCtx.mk Option.none []) = .ok (t, false) ∧
      t.cache_validator = CacheValidatorV.never_use) :=
  ⟨(c9_cache_validator_without_cache_for_warns Option.none "T" Option.none
      Option.none Option.none TagsArg.pynone 0 60 Option.none Option.none true
      (InitCtx.mk Option.none []) (fun _s h => nomatch h)).1 3,
   (c9_cache_validator_without_cache_for_warns Option.none "T" Option.none
      Option.none Option.none TagsArg.pynone 0 60 Option.none Option.none true
      (InitCtx.mk Option.none []) (fun _s h => nomatch h)).2 Option.none⟩

/-- C10: for every Parameter constructed (with a non-empty name), the stored
`required` flag is `False` whenever the default value is not `None`,
regardless of the `required` argument passed; it equals the passed
`required` only when the default is `None`. -/
theorem c10_nonnull_default_forces_not_required (name : String)
    (default : PyVal) (required : Bool) (h : name ≠ "") :
    ∃ p, parameterInit name default required = .ok p ∧
      p.required
        = (match default with | PyVal.pynone => required | _ => false) := by
  exact ⟨_, parameterInit_ok name default required h, rfl⟩

/-- C10 witness: `Parameter("x", default=5, required=True)` stores
`required = False`. -/
theorem c10_nonnull_default_forces_not_required_witness :
    ∃ p, parameterInit "x" (PyVal.int 5) true = .ok p ∧ p.required = false :=
  c10_nonnull_default_forces_not_required "x" (PyVal.int 5) true (by decide)
